import Mathlib

/-
Verification of the PrinterPython repository specification.

The file shallowly embeds the parts of the program the claims speak about:
  - src/pressure_controller.py  (PD pressure controller)
  - src/g_code/comands.py       (G-code command encoder)
  - src/g_code/patterns.py      (pattern generators)
  - src/g_code_comands.py       (legacy generators, lattice_3d)
  - src/printer_gui.py          (toolpath dispatcher and capture parser)
  - src/hardware/klipper_controller.py (idle polling)

Python floats are modelled as exact rationals where the code is pure
arithmetic, and as reals where the code takes square roots.  Wall-clock
time is passed explicitly to the functions that read time.time().
Mutation of shared Python objects is modelled by threading the object
state and returning the state the object holds after the call.
-/

set_option autoImplicit false

namespace PrinterPython

/-! ## Pressure controller (src/pressure_controller.py) -/

/-- State of a PressureController object: the constructor parameters
(kp, kd, min_extrusion, max_extrusion, pressure_tolerance, sample_time,
src/pressure_controller.py lines 20-38) together with the mutable
controller state (prev_error, prev_time, integral, pressure_history,
lines 40-47).  history_length is the constant 5. -/
structure PCState where
  kp : ℚ
  kd : ℚ
  min_extrusion : ℚ
  max_extrusion : ℚ
  pressure_tolerance : ℚ
  sample_time : ℚ
  prev_error : ℚ
  prev_time : ℚ
  integral : ℚ
  pressure_history : List ℚ
  deriving DecidableEq

/-- np.mean of a list of rationals: sum divided by length. -/
def listMean (l : List ℚ) : ℚ := l.sum / (l.length : ℚ)

/-- The pressure history after appending the new reading and trimming
to history_length = 5 by one pop(0)
(src/pressure_controller.py lines 71-74). -/
def pcHist (s : PCState) (current_pressure : ℚ) : List ℚ :=
  let hist1 := s.pressure_history ++ [current_pressure]
  if 5 < hist1.length then hist1.drop 1 else hist1

/-- The error used by the PD law: the raw error
target_pressure - current_pressure (line 69), replaced by the smoothed
error against the history mean once at least 3 samples are stored
(src/pressure_controller.py lines 76-79). -/
def pcError (s : PCState) (current_pressure target_pressure : ℚ) : ℚ :=
  if 3 ≤ (pcHist s current_pressure).length then
    target_pressure - listMean (pcHist s current_pressure)
  else
    target_pressure - current_pressure

/-- PressureController.calculate_extrusion_rate
(src/pressure_controller.py lines 49-101).  The reading of time.time()
is passed in as current_time.  Returns the corrected extrusion rate and
the controller state after the call. -/
def calculate_extrusion_rate (s : PCState) (current_time current_pressure
    target_pressure current_extrusion_rate : ℚ) : ℚ × PCState :=
  let dt := current_time - s.prev_time
  if dt < s.sample_time then
    (current_extrusion_rate, s)
  else
    let error := pcError s current_pressure target_pressure
    let derivative := if 0 < dt then (error - s.prev_error) / dt else 0
    let correction := s.kp * error + s.kd * derivative
    let corrected := current_extrusion_rate + correction
    let clamped := max s.min_extrusion (min s.max_extrusion corrected)
    (clamped,
     { s with prev_error := error, prev_time := current_time,
              pressure_history := pcHist s current_pressure })

/-- Outputs of a sequence of calculate_extrusion_rate calls, each call
given as a pair (call time, input extrusion rate); pressure reading and
target are both the constant target. -/
def runCalls (s : PCState) (target : ℚ) : List (ℚ × ℚ) → List ℚ
  | [] => []
  | (t, r) :: rest =>
      (calculate_extrusion_rate s t target target r).1 ::
        runCalls (calculate_extrusion_rate s t target target r).2 target rest

/-- The calls of a sequence are each at least sample_time after the
previous accepted tick and pass an extrusion rate inside the clamp
interval. -/
def okCalls (s : PCState) (target : ℚ) : List (ℚ × ℚ) → Prop
  | [] => True
  | (t, r) :: rest =>
      s.prev_time + s.sample_time ≤ t ∧
      s.min_extrusion ≤ r ∧ r ≤ s.max_extrusion ∧
      okCalls (calculate_extrusion_rate s t target target r).2 target rest

/-- Steady-state invariant: no stored error and every stored pressure
sample equals the target.  It holds for a freshly constructed or reset
controller (prev_error = 0, pressure_history = []). -/
def steadyInv (s : PCState) (target : ℚ) : Prop :=
  s.prev_error = 0 ∧ ∀ x ∈ s.pressure_history, x = target

/-- A controller as built by PressureController() with the source's
default arguments (src/pressure_controller.py line 20), with the
construction-time clock reading taken as 0. -/
def pcDefault : PCState :=
  { kp := 1/10, kd := 1/20, min_extrusion := 1/1000, max_extrusion := 1/5,
    pressure_tolerance := 1/2, sample_time := 1/100,
    prev_error := 0, prev_time := 0, integral := 0, pressure_history := [] }

/-! ## Python string helpers

The dispatcher and the capture parser work on raw toolpath strings.
The helpers below model, on explicit character lists, exactly the
Python primitives the source uses: str.split(","), str.strip(),
the substring test of the in operator, int() and float(). -/

/-- Python command.split(sep) for a one-character separator: split at
every occurrence, keeping empty pieces. -/
def splitOnChar (sep : Char) : List Char → List (List Char)
  | [] => [[]]
  | c :: rest =>
      match splitOnChar sep rest with
      | [] => if c = sep then [[], [c]] else [[c]]
      | h :: t => if c = sep then [] :: h :: t else (c :: h) :: t

/-- Python str.strip(): drop whitespace from both ends. -/
def pyStrip (l : List Char) : List Char :=
  ((l.dropWhile Char.isWhitespace).reverse.dropWhile Char.isWhitespace).reverse

/-- Value of a nonempty all-digit character list, read in base 10. -/
def digitsVal? (l : List Char) : Option ℕ :=
  if l ≠ [] ∧ l.all Char.isDigit then
    some (l.foldl (fun n c => 10 * n + (c.toNat - 48)) 0)
  else none

/-- Python int(s) on a stripped argument: optional sign then digits;
anything else raises ValueError, modelled as none. -/
def pyInt? (l : List Char) : Option ℤ :=
  match l with
  | '-' :: rest => (digitsVal? rest).map (fun n => -(n : ℤ))
  | '+' :: rest => (digitsVal? rest).map (fun n => (n : ℤ))
  | _ => (digitsVal? l).map (fun n => (n : ℤ))

/-- Python float(s) on a stripped plain decimal literal (the only form
the dispatcher ever passes): optional sign, digits, optional point and
fraction digits, at least one digit overall.  Exotic accepted forms of
float() (exponents, inf, nan) never occur on this path. -/
def pyFloat? (l : List Char) : Option ℚ :=
  let signed : (ℚ → ℚ) × List Char :=
    match l with
    | '-' :: rest => (fun q => -q, rest)
    | '+' :: rest => (fun q => q, rest)
    | _ => (fun q => q, l)
  let ip := signed.2.takeWhile (fun c => c ≠ '.')
  let rest := signed.2.dropWhile (fun c => c ≠ '.')
  match rest with
  | [] => (digitsVal? ip).map (fun n => signed.1 (n : ℚ))
  | '.' :: fp =>
      if ip.all Char.isDigit ∧ fp.all Char.isDigit ∧ (ip ≠ [] ∨ fp ≠ []) then
        some (signed.1
          ((ip.foldl (fun n c => 10 * n + (c.toNat - 48)) 0 : ℕ) +
            (fp.foldl (fun n c => 10 * n + (c.toNat - 48)) 0 : ℕ) / (10 : ℚ) ^ fp.length))
      else none
  | _ :: _ => none

/-- Whether needle occurs at the start of hay. -/
def startsWithChars : List Char → List Char → Bool
  | [], _ => true
  | _ :: _, [] => false
  | a :: as, b :: bs => a = b && startsWithChars as bs

/-- Whether needle occurs anywhere in hay. -/
def hasSub (needle : List Char) : List Char → Bool
  | [] => needle.isEmpty
  | c :: rest => startsWithChars needle (c :: rest) || hasSub needle rest

/-- Python needle in hay on strings. -/
def pyIn (needle hay : String) : Bool := hasSub needle.data hay.data

/-! ## Capture directive: formatter and parser

capture_print (src/g_code/comands.py lines 70-81) emits the textual
capture directive; PrinterGUI._handle_capture_command
(src/printer_gui.py lines 846-882) parses it.  The formatter arguments
are the integer coordinates and string file name of the claim; Python
str() of them is modelled field by field. -/

/-- Python str(x) for the optional file_name argument: None prints as
"None". -/
def pyOptStr : Option String → String
  | none => "None"
  | some s => s

/-- Python str(b) for a bool. -/
def pyBoolStr (b : Bool) : String := if b then "True" else "False"

/-- The CAPTURE line of capture_print in the non-time-lapse branch
(src/g_code/comands.py line 74), including its double space after the
comma. -/
def captureLine (camera x y z : ℤ) (file_name : Option String) (time_lapse : Bool) :
    String :=
  "CAPTURE,  " ++ toString camera ++ ", " ++ toString x ++ ", " ++ toString y ++
    ", " ++ toString z ++ ", " ++ pyOptStr file_name ++ ", " ++ pyBoolStr time_lapse

/-- The time-lapse CAPTURE line (src/g_code/comands.py line 79). -/
def captureLineTL (camera x y z : ℤ) (file_name : Option String) (time_lapse : Bool)
    (interval duration : ℤ) : String :=
  "CAPTURE,  " ++ toString camera ++ ", " ++ toString x ++ ", " ++ toString y ++
    ", " ++ toString z ++ ", " ++ pyOptStr file_name ++ ", " ++ pyBoolStr time_lapse ++
    " , " ++ toString interval ++ ", " ++ toString duration

/-- capture_print (src/g_code/comands.py lines 70-81), at the string
level of the toolpath list. -/
def capture_print (camera x y z : ℤ) (file_name : Option String) (time_lapse : Bool)
    (time_lapse_interval time_lapse_duration : ℤ) : List String :=
  if time_lapse = false then
    ["", ";Capturing Immage", captureLine camera x y z file_name time_lapse, ""]
  else
    ["", ";Capturing Time Lapse",
     captureLineTL camera x y z file_name time_lapse time_lapse_interval
       time_lapse_duration, ""]

/-- PrinterGUI._handle_capture_command (src/printer_gui.py lines
846-882): split on commas, strip each part, require exactly 5 parts,
then convert camera with int() and x, y, z with float().  A length
mismatch or a conversion error makes the handler log and return
without capturing, modelled as none; success yields the recovered
fields (the handler recovers no file name and no time-lapse flag). -/
def handleCaptureCommand (command : String) : Option (ℤ × ℚ × ℚ × ℚ) :=
  let parts := (splitOnChar ',' command.data).map pyStrip
  match parts with
  | [_, p1, p2, p3, p4] =>
      match pyInt? p1, pyFloat? p2, pyFloat? p3, pyFloat? p4 with
      | some camera, some x, some y, some z => some (camera, x, y, z)
      | _, _, _, _ => none
  | _ => none

/-! ## Toolpath dispatcher (src/printer_gui.py lines 833-844) -/

/-- Observable effect of dispatching one toolpath line. -/
inductive DispatchEvent where
  | captured (cmd : String)
  | sent (cmd : String)
  deriving DecidableEq, Repr

/-- PrinterGUI._execute_toolpath (src/printer_gui.py lines 833-844):
a line containing "CAPTURE" anywhere goes to the capture handler; of
the remaining lines exactly those containing no ";" anywhere are sent
to printer_controller.send_gcode, in order.  The fixed 0.01 s delay
after each send has no observable effect here. -/
def executeToolpath : List String → List DispatchEvent
  | [] => []
  | command :: rest =>
      if pyIn "CAPTURE" command then
        DispatchEvent.captured command :: executeToolpath rest
      else if pyIn ";" command then
        executeToolpath rest
      else
        DispatchEvent.sent command :: executeToolpath rest

/-- Lines forwarded to send_gcode, in order. -/
def sentLines (events : List DispatchEvent) : List String :=
  events.filterMap (fun e => match e with
    | DispatchEvent.sent c => some c
    | _ => none)

/-- Lines routed to the capture handler, in order. -/
def capturedLines (events : List DispatchEvent) : List String :=
  events.filterMap (fun e => match e with
    | DispatchEvent.captured c => some c
    | _ => none)

/-- Whether a line is a comment line in the sense of the claim: it
begins with a semicolon. -/
def startsWithSemi (c : String) : Bool :=
  match c.data with
  | ';' :: _ => true
  | _ => false

/-- Modelled from the spec (claim wording): capture lines go to the
capture handler; each blank line and each line beginning with ';' is
skipped; every other line is forwarded verbatim.  Stated only to be
compared with executeToolpath, the dispatcher the source implements. -/
def specDispatch : List String → List DispatchEvent
  | [] => []
  | command :: rest =>
      if pyIn "CAPTURE" command then
        DispatchEvent.captured command :: specDispatch rest
      else if command = "" || startsWithSemi command then
        specDispatch rest
      else
        DispatchEvent.sent command :: specDispatch rest

/-! ## Profiles (src/configs.py) -/

/-- Capacitor geometry profile (src/configs.py lines 20-27).  arm_count
is the loop bound of the generators (range(0, arm_count, 1)) and so is
modelled as a natural number; every configured profile is a small
positive integer. -/
structure Capacitor where
  stem_len : ℝ
  arm_len : ℝ
  arm_count : ℕ
  gap : ℝ
  arm_gap : ℝ
  contact_patch_width : ℝ

/-- Printer profile (src/configs.py lines 30-43), with the three extra
fields set by the constructor. -/
structure Printer where
  extrusion : ℝ
  retraction : ℝ
  feed_rate : ℝ
  movement_speed : ℝ
  print_height : ℝ
  bed_height : ℝ
  z_hop : ℝ
  line_gap : ℝ
  pressure_passed_extrusion : Bool
  segment_length : ℝ
  target_pressure : ℝ

/-- Printer.set_print_height (src/configs.py lines 56-61). -/
def Printer.set_print_height (p : Printer) (h : ℝ) (bed : Option ℝ) : Printer :=
  match bed with
  | none => { p with print_height := h }
  | some b => { p with print_height := h, bed_height := b }

/-! ## Toolpath instructions

Each generated toolpath line is one of finitely many f-string templates
of src/g_code/comands.py and src/g_code_comands.py.  The embedding keeps
one constructor per template, carrying the interpolated values. -/

/-- One line of a generated toolpath. -/
inductive Instr where
  /-- The empty line "". -/
  | blank
  /-- A line ";text" (comment lines carrying only literal text). -/
  | comment (text : String)
  /-- A comment line interpolating one numeric value, such as
  ";\txStart : {xStart}". -/
  | commentVal (label : String) (value : ℝ)
  /-- The header comment of printLayers interpolating the cap and prnt
  objects (src/g_code/patterns.py line 144). -/
  | commentLayers (cap : Capacitor) (prnt : Printer) (xStart yStart xOffset yOffset : ℝ)
  /-- A literal non-comment line such as "G28", "M84", "WAIT",
  "PRINT_MESSAGE" or a bare message text. -/
  | raw (text : String)
  /-- "G1 X.. Y.. Z.. E.. F.." (movePrintHead with extrusion). -/
  | g1xyzEF (x y z e f : ℝ)
  /-- "G1 X.. Y.. Z.. F.." (movePrintHead without extrusion). -/
  | g1xyzF (x y z f : ℝ)
  /-- "G1 X.. E.. F.." (printX). -/
  | g1xEF (x e f : ℝ)
  /-- "G1 Y.. E.. F.." (printY). -/
  | g1yEF (y e f : ℝ)
  /-- "G1 X.. F.." (moveX). -/
  | g1xF (x f : ℝ)
  /-- "G1 Y.. F.." (moveY). -/
  | g1yF (y f : ℝ)
  /-- "G1 Z.. F.." (moveZ). -/
  | g1zF (z f : ℝ)
  /-- "G1 E.." (retract). -/
  | g1E (e : ℝ)
  /-- "G90; Absolute Cordinates". -/
  | g90
  /-- "G91; Relative Cordinates". -/
  | g91
  /-- "PASUE, {delay}" (pause, with the source's spelling). -/
  | pasueCmd (delay : ℝ)
  /-- "PRINT_MESSAGE, {message}" (send_message of src/g_code/comands.py). -/
  | printMessageCmd (message : String)
  /-- "CAPTURE,  {camera}, {x}, {y}, {z}, {file_name}, {time_lapse}". -/
  | captureCmd (camera : ℤ) (x y z : ℝ) (file_name : Option String) (time_lapse : Bool)
  /-- The time-lapse CAPTURE line with interval and duration. -/
  | captureTLCmd (camera : ℤ) (x y z : ℝ) (file_name : Option String)
      (time_lapse : Bool) (interval duration : ℝ)

/-! ## Command encoder (src/g_code/comands.py lines 6-46; the identical
definitions appear again in src/g_code_comands.py lines 10-46). -/

noncomputable section

/-- movePrintHead(x_move, y_move, z_move, prnt, extrusion)
(src/g_code/comands.py lines 6-11). -/
def movePrintHead (x_move y_move z_move : ℝ) (prnt : Printer) (extrude : Bool) :
    List Instr :=
  if extrude then
    [Instr.g1xyzEF x_move y_move z_move
      (-(prnt.extrusion * |Real.sqrt (x_move ^ 2 + y_move ^ 2)|)) prnt.feed_rate]
  else
    [Instr.g1xyzF x_move y_move z_move prnt.movement_speed]

/-- retract(prnt) (src/g_code/comands.py lines 13-15). -/
def retract (prnt : Printer) : List Instr := [Instr.g1E prnt.retraction]

/-- printX(x_move, prnt) (src/g_code/comands.py lines 17-19). -/
def printX (x_move : ℝ) (prnt : Printer) : List Instr :=
  [Instr.g1xEF x_move (-(prnt.extrusion * |x_move|)) prnt.feed_rate]

/-- printY(y_move, prnt) (src/g_code/comands.py lines 21-23). -/
def printY (y_move : ℝ) (prnt : Printer) : List Instr :=
  [Instr.g1yEF y_move (-(prnt.extrusion * |y_move|)) prnt.feed_rate]

/-- moveX(x_move, prnt) (src/g_code/comands.py lines 25-27). -/
def moveX (x_move : ℝ) (prnt : Printer) : List Instr :=
  [Instr.g1xF x_move prnt.movement_speed]

/-- moveY(y_move, prnt) (src/g_code/comands.py lines 29-31). -/
def moveY (y_move : ℝ) (prnt : Printer) : List Instr :=
  [Instr.g1yF y_move prnt.movement_speed]

/-- moveZ(z_move, prnt) (src/g_code/comands.py lines 33-35). -/
def moveZ (z_move : ℝ) (prnt : Printer) : List Instr :=
  [Instr.g1zF z_move prnt.movement_speed]

/-- absolute() (src/g_code/comands.py lines 36-38). -/
def absoluteCmd : List Instr := [Instr.g90]

/-- relative() (src/g_code/comands.py lines 40-42). -/
def relativeCmd : List Instr := [Instr.g91]

/-- home() (src/g_code/comands.py lines 44-46). -/
def homeCmd : List Instr := [Instr.raw "G28"]

/-- capture_print at the instruction level (src/g_code_comands.py lines
68-79; src/g_code/comands.py lines 70-81 is identical). -/
def capturePrintInstr (camera : ℤ) (x y z : ℝ) (file_name : Option String)
    (time_lapse : Bool) (interval duration : ℝ) : List Instr :=
  if time_lapse = false then
    [Instr.blank, Instr.comment "Capturing Immage",
     Instr.captureCmd camera x y z file_name time_lapse, Instr.blank]
  else
    [Instr.blank, Instr.comment "Capturing Time Lapse",
     Instr.captureTLCmd camera x y z file_name time_lapse interval duration,
     Instr.blank]

/-- send_message of the legacy module (src/g_code_comands.py lines
59-61): the tag and the message are separate lines. -/
def sendMessageLegacy (message : String) : List Instr :=
  [Instr.blank, Instr.raw "PRINT_MESSAGE", Instr.raw message, Instr.blank]

/-- waitForInput() (src/g_code_comands.py lines 63-65). -/
def waitForInput : List Instr := [Instr.blank, Instr.raw "WAIT", Instr.blank]

/-- Planar length of a stroke with displacement (dx, dy). -/
def planarDistance (dx dy : ℝ) : ℝ := Real.sqrt (dx ^ 2 + dy ^ 2)

/-- Extrusion term of a toolpath line, when the line has one. -/
def Instr.eTerm : Instr → Option ℝ
  | Instr.g1xyzEF _ _ _ e _ => some e
  | Instr.g1xEF _ e _ => some e
  | Instr.g1yEF _ e _ => some e
  | Instr.g1E e => some e
  | _ => none

/-- Feed term of a toolpath line, when the line has one. -/
def Instr.feedTerm : Instr → Option ℝ
  | Instr.g1xyzEF _ _ _ _ f => some f
  | Instr.g1xyzF _ _ _ f => some f
  | Instr.g1xEF _ _ f => some f
  | Instr.g1yEF _ _ f => some f
  | Instr.g1xF _ f => some f
  | Instr.g1yF _ f => some f
  | Instr.g1zF _ f => some f
  | _ => none

/-- The SetMode switches of a toolpath, in order: true for G90
(absolute), false for G91 (relative). -/
def modesOf (l : List Instr) : List Bool :=
  l.filterMap (fun i => match i with
    | Instr.g90 => some true
    | Instr.g91 => some false
    | _ => none)

/-! ## printLayers (src/g_code/patterns.py lines 135-200)

The source starts with prntPre = prnt (an alias of the same object,
not a copy) and then assigns prntPre.extrusion and prnt.extrusion in
turn; both assignments hit the one shared object, so every later read
through either name sees extrusion + 0.005 + 0.001.  The embedding
threads that one object state (pObj) and returns it together with the
output list. -/

/-- Body of the first arm loop of printLayers (src/g_code/patterns.py
lines 154-174); pObj is the single profile object both prnt and
prntPre refer to. -/
def printLayersArmL (cap : Capacitor) (pObj : Printer) (i : ℕ) : List Instr :=
  relativeCmd ++ printX (2.5 : ℝ) pObj ++ moveZ (2.5 : ℝ) pObj ++
    movePrintHead (2.5 : ℝ) 0 (-(2.5 : ℝ)) pObj false ++
  relativeCmd ++ printX cap.arm_len pObj ++ printY pObj.line_gap pObj ++
    printX (-cap.arm_len) pObj ++ movePrintHead (-5) 0 5 pObj false ++
  (if (i : ℤ) < (cap.arm_count : ℤ) - 1 then
      moveY cap.arm_gap pObj ++ absoluteCmd ++ moveZ pObj.print_height pObj
    else
      moveZ 5 pObj)

/-- Body of the second arm loop of printLayers (src/g_code/patterns.py
lines 179-198). -/
def printLayersArmR (cap : Capacitor) (pObj : Printer) (i : ℕ) : List Instr :=
  relativeCmd ++ printX (-2) pObj ++ moveZ 2 pObj ++
    movePrintHead (-3) 0 (-2) pObj false ++
  relativeCmd ++ printX (-cap.arm_len) pObj ++ printY pObj.line_gap pObj ++
    printX cap.arm_len pObj ++ movePrintHead 5 0 5 pObj false ++
  (if (i : ℤ) < (cap.arm_count : ℤ) - 1 then
      moveY cap.arm_gap pObj ++ absoluteCmd ++ moveZ pObj.print_height pObj
    else
      moveZ 5 pObj)

/-- printLayers(cap, prnt, xStart, yStart, xOffset, yOffset)
(src/g_code/patterns.py lines 135-200).  Returns the toolpath and the
state the caller's profile object holds after the call. -/
def printLayers (cap : Capacitor) (prnt : Printer) (xStart yStart xOffset yOffset : ℝ) :
    List Instr × Printer :=
  let pObj := { prnt with extrusion := prnt.extrusion + 0.005 }
  let pObj := { pObj with extrusion := pObj.extrusion + 0.001 }
  let xS := xStart + xOffset
  let yS := yStart + yOffset
  let header : List Instr :=
    [Instr.commentLayers cap pObj xS yS xOffset yOffset,
     Instr.comment "", Instr.comment "", Instr.comment ""]
  let part1 :=
    absoluteCmd ++ movePrintHead (xS - 5) (yS + cap.stem_len) 5 pObj false ++
      moveZ pObj.print_height pObj ++
      (List.range cap.arm_count).flatMap (printLayersArmL cap pObj)
  let part2 :=
    absoluteCmd ++
      movePrintHead (xS + cap.arm_len + cap.gap + 5)
        (yS + cap.stem_len - cap.arm_gap / 2 - pObj.line_gap) pObj.print_height
        pObj false ++
      (List.range cap.arm_count).flatMap (printLayersArmR cap pObj)
  (header ++ part1 ++ part2, pObj)

/-! ## printCap_contact_patch (src/g_code/patterns.py lines 53-133)

As in printLayers, prntPre = prnt aliases the caller's object, so the
+0.005 assignment mutates it and every stroke of the generator reads
the bumped rate. -/

/-- Body of the left arm loop of printCap_contact_patch
(src/g_code/patterns.py lines 83-87). -/
def contactArmL (cap : Capacitor) (pObj : Printer) (_i : ℕ) : List Instr :=
  printY cap.arm_gap pObj ++ printX cap.arm_len pObj ++
    printY pObj.line_gap pObj ++ printX (-cap.arm_len) pObj

/-- Body of the right arm loop of printCap_contact_patch
(src/g_code/patterns.py lines 123-127). -/
def contactArmR (cap : Capacitor) (pObj : Printer) (_i : ℕ) : List Instr :=
  printY cap.arm_gap pObj ++ printX (-cap.arm_len) pObj ++
    printY pObj.line_gap pObj ++ printX cap.arm_len pObj

/-- printCap_contact_patch(cap, prnt, xStart, yStart)
(src/g_code/patterns.py lines 53-133).  The movePrintHead(0,-3,3,prnt)
expression of line 93 is evaluated but its result is never appended in
the source, so it contributes no line here.  Returns the toolpath and
the state the caller's profile object holds after the call. -/
def printCap_contact_patch (cap : Capacitor) (prnt : Printer) (xStart yStart : ℝ) :
    List Instr × Printer :=
  let pObj := { prnt with extrusion := prnt.extrusion + 0.005 }
  let header : List Instr :=
    [Instr.blank, Instr.blank,
     Instr.comment "Printing Capasitor (double Line no lift)",
     Instr.commentVal "xStart" xStart, Instr.commentVal "yStart" yStart]
  let part1 :=
    absoluteCmd ++ movePrintHead xStart (yStart - 6) 10 pObj false ++
      moveZ pObj.print_height pObj ++ relativeCmd ++ printY 2 pObj ++
      absoluteCmd ++ moveZ (pObj.print_height + 2) pObj ++
      movePrintHead xStart yStart pObj.print_height pObj false ++ relativeCmd ++
      printX (-(cap.contact_patch_width / 2)) pObj ++
      printY cap.contact_patch_width pObj ++ printX cap.contact_patch_width pObj ++
      printY (-cap.contact_patch_width) pObj ++
      printX (-(cap.contact_patch_width / 2)) pObj ++
      printY (cap.stem_len - cap.arm_gap) pObj ++
      (List.range cap.arm_count).flatMap (contactArmL cap pObj) ++
      printX (-pObj.line_gap) pObj ++
      printY (-(cap.stem_len + (cap.arm_count : ℝ) * pObj.line_gap +
        ((cap.arm_count : ℝ) - 1) * cap.arm_gap)) pObj
  let part2 :=
    absoluteCmd ++
      movePrintHead (xStart + cap.arm_len + cap.gap) (yStart - 6) 10 pObj false ++
      moveZ pObj.print_height pObj ++ relativeCmd ++ printY 2 pObj ++
      absoluteCmd ++ moveZ (pObj.print_height + 2) pObj ++
      movePrintHead (xStart + cap.arm_len + cap.gap) yStart pObj.print_height
        pObj false ++ relativeCmd ++
      printX (-(cap.contact_patch_width / 2)) pObj ++
      printY cap.contact_patch_width pObj ++ printX cap.contact_patch_width pObj ++
      printY (-cap.contact_patch_width) pObj ++
      printX (-(cap.contact_patch_width / 2)) pObj ++
      printY (cap.stem_len - 3 * cap.arm_gap / 2 - pObj.line_gap) pObj ++
      (List.range cap.arm_count).flatMap (contactArmR cap pObj) ++
      printY (-(cap.stem_len + (cap.arm_count : ℝ) * pObj.line_gap +
        ((cap.arm_count : ℝ) - 1) * cap.arm_gap - cap.arm_gap / 2)) pObj ++
      movePrintHead 0 (-3) 3 pObj false
  (header ++ part1 ++ part2, pObj)

/-! ## lattice_3d (src/g_code_comands.py lines 608-692) -/

/-- The runtime error lattice_3d runs into. -/
inductive PyErr where
  | attributeError
  deriving DecidableEq, Repr

/-- Modelled Python attribute lookup for the calls on lines 640 and 677
of src/g_code_comands.py: lattice_3d invokes prnt.setPrintHeight(...),
but class Printer (src/configs.py lines 30-61) defines only
set_print_height, so the lookup raises AttributeError. -/
def setPrintHeightCall (_prnt : Printer) (_h : ℝ) : Except PyErr Printer :=
  Except.error PyErr.attributeError

/-- Vertical sections of one lattice layer (src/g_code_comands.py lines
631-636). -/
def latticeVertical (prnt : Printer) (rows cols : ℕ) (spacing : ℝ) : List Instr :=
  (List.range rows).flatMap (fun i =>
    (if i % 2 = 0 then printY (spacing * (cols : ℝ)) prnt
     else printY (-(spacing * (cols : ℝ))) prnt) ++ printX spacing prnt)

/-- Horizontal sections of one lattice layer (src/g_code_comands.py
lines 650-673). -/
def latticeHorizontal (prnt : Printer) (rows cols : ℕ) (spacing : ℝ) : List Instr :=
  if rows % 2 = 0 then
    printY (spacing * (cols : ℝ)) prnt ++
      (List.range cols).flatMap (fun i =>
        if i % 2 = 0 then
          printX (-(spacing * (rows : ℝ))) prnt ++ printY (-spacing) prnt
        else
          printX (spacing * (rows : ℝ)) prnt ++ printY (-spacing) prnt) ++
      printX (-5 - spacing - spacing * (cols : ℝ)) prnt
  else
    printY (-(spacing * (cols : ℝ))) prnt ++
      (List.range cols).flatMap (fun i =>
        if i % 2 = 0 then
          printX (-(spacing * (rows : ℝ))) prnt ++ printY spacing prnt
        else
          printX (spacing * (rows : ℝ)) prnt ++ printY spacing prnt) ++
      printX (5 + (cols : ℝ) * spacing) prnt

/-- The per-layer loop of lattice_3d (src/g_code_comands.py lines
629-685), over the list of remaining layer indices, threading the
current layer height, the profile object and the output accumulator. -/
def lattice3dGo (initialZ layer_height : ℝ) (rows cols : ℕ) (spacing : ℝ)
    (layers : ℕ) :
    List ℕ → ℝ → Printer → List Instr → Except PyErr (List Instr × ℝ × Printer)
  | [], clh, prnt, acc => Except.ok (acc, clh, prnt)
  | layer :: rest, clh, prnt, acc =>
      let acc1 := acc ++ latticeVertical prnt rows cols spacing
      let clh1 := clh + layer_height
      match setPrintHeightCall prnt (initialZ + clh1) with
      | Except.error e => Except.error e
      | Except.ok prnt1 =>
          let acc2 := acc1 ++
            capturePrintInstr 1 65 10 (clh1 + 60)
              (some ("lattice_layer_" ++ toString layer ++ "_Vertical")) false 30 1800 ++
            sendMessageLegacy "Continue to next layer" ++ waitForInput ++
            latticeHorizontal prnt1 rows cols spacing
          let clh2 := clh1 + layer_height
          match setPrintHeightCall prnt1 (initialZ + clh2) with
          | Except.error e => Except.error e
          | Except.ok prnt2 =>
              let acc3 := acc2 ++
                capturePrintInstr 1 65 10 (clh2 + 60)
                  (some ("lattice_layer_" ++ toString layer ++ "_Horizontal")) false 30 1800
              let acc4 :=
                if layer ≠ layers - 1 then
                  acc3 ++ sendMessageLegacy "Continue to next layer" ++ waitForInput
                else acc3
              lattice3dGo initialZ layer_height rows cols spacing layers rest clh2
                prnt2 acc4

/-- lattice_3d(prnt, start_x, start_y, rows, cols, spacing, layers,
layer_height) (src/g_code_comands.py lines 608-692). -/
def lattice_3d (prnt : Printer) (start_x start_y : ℝ) (rows cols : ℕ) (spacing : ℝ)
    (layers : ℕ) (layer_height : ℝ) : Except PyErr (List Instr × Printer) :=
  let initialZ := prnt.print_height
  let header : List Instr :=
    [Instr.blank, Instr.blank, Instr.comment "Printing Lattice/Grid",
     Instr.commentVal "start_x" start_x, Instr.commentVal "start_y" start_y,
     Instr.commentVal "horizontal_lines" (cols : ℝ),
     Instr.commentVal "vertical_lines" (rows : ℝ),
     Instr.commentVal "spacing" spacing]
  let acc := header ++ absoluteCmd ++
    movePrintHead start_x (start_y - spacing) 5 prnt false ++
    moveZ prnt.print_height prnt ++ relativeCmd ++ printY 5 prnt
  match lattice3dGo initialZ layer_height rows cols spacing layers
      (List.range layers) 0 prnt acc with
  | Except.error e => Except.error e
  | Except.ok (acc1, _, prnt1) =>
      Except.ok (acc1 ++ absoluteCmd ++ moveZ 60 prnt1 ++
        movePrintHead 65 10 60 prnt1 false, prnt1)

end

/-! ## Klipper idle polling (src/hardware/klipper_controller.py) -/

/-- KlipperController.is_printer_moving (src/hardware/klipper_controller.py
lines 372-386).  One HTTP round trip is modelled by its outcome: ok v
is a successful query whose motion report yields live_velocity v (a
missing key defaults to 0 before this point), error is any raised
exception (unreachable controller, malformed response).  The source
returns live_velocity > 0.1 and returns False from its except clause. -/
def is_printer_moving (poll : Except Unit ℚ) : Bool :=
  match poll with
  | Except.ok v => decide ((1 : ℚ)/10 < v)
  | Except.error _ => false

/-- KlipperController.wait_for_idle (src/hardware/klipper_controller.py
lines 389-401).  The bounded spin-wait is modelled with fuel: the
number of loop iterations the timeout still allows; i indexes the
stream of poll outcomes, and the debounce re-check consumes the next
poll.  Returns false when the timeout elapses first. -/
def wait_for_idle (poll : ℕ → Except Unit ℚ) : ℕ → ℕ → Bool
  | 0, _ => false
  | fuel + 1, i =>
      if is_printer_moving (poll i) then
        wait_for_idle poll fuel (i + 1)
      else if is_printer_moving (poll (i + 1)) then
        wait_for_idle poll fuel (i + 2)
      else
        true

/-- A run in which every velocity query raises. -/
def pollAlwaysFails : ℕ → Except Unit ℚ := fun _ => Except.error ()

/-! ## Concrete fixtures used by witnesses and counterexamples -/

noncomputable section

/-- A capacitor profile with a single arm. -/
def capOneArm : Capacitor :=
  { stem_len := 10, arm_len := 10, arm_count := 1, gap := 3, arm_gap := 4,
    contact_patch_width := 3 }

/-- The stdCap profile (src/configs.py lines 74-81). -/
def capStd : Capacitor :=
  { stem_len := 10, arm_len := 10, arm_count := 4, gap := 3, arm_gap := 4,
    contact_patch_width := 3 }

/-- The MXeneInkPrintProfile printer profile (src/configs.py lines
116-125). -/
def printerMXene : Printer :=
  { extrusion := 0.02, retraction := 0.03, feed_rate := 1300,
    movement_speed := 5000, print_height := 1.9, bed_height := 1.75,
    z_hop := 5, line_gap := 0.3, pressure_passed_extrusion := false,
    segment_length := 0, target_pressure := 0 }

end

/-! ## Helper lemmas -/

theorem list_sum_const (l : List ℚ) (t : ℚ) (h : ∀ x ∈ l, x = t) :
    l.sum = (l.length : ℚ) * t := by
  induction l with
  | nil => simp
  | cons a l ih =>
      have ha : a = t := h a (by simp)
      have hl : ∀ x ∈ l, x = t := fun x hx => h x (by simp [hx])
      rw [List.sum_cons, ih hl, ha, List.length_cons]
      push_cast
      ring

theorem listMean_const (l : List ℚ) (t : ℚ) (hall : ∀ x ∈ l, x = t)
    (hne : l ≠ []) : listMean l = t := by
  have hlen : (l.length : ℚ) ≠ 0 := by
    have : l.length ≠ 0 := by simpa [List.length_eq_zero] using hne
    exact_mod_cast this
  unfold listMean
  rw [list_sum_const l t hall]
  field_simp

theorem pcHist_all (s : PCState) (target : ℚ)
    (hall : ∀ x ∈ s.pressure_history, x = target) :
    ∀ x ∈ pcHist s target, x = target := by
  intro x hx
  have hall1 : ∀ y ∈ s.pressure_history ++ [target], y = target := by
    intro y hy
    rcases List.mem_append.mp hy with h | h
    · exact hall y h
    · simpa using h
  simp only [pcHist] at hx
  by_cases hc : 5 < (s.pressure_history ++ [target]).length
  · rw [if_pos hc] at hx
    exact hall1 x (List.mem_of_mem_drop hx)
  · rw [if_neg hc] at hx
    exact hall1 x hx

theorem pcError_steady (s : PCState) (target : ℚ)
    (hall : ∀ x ∈ s.pressure_history, x = target) :
    pcError s target target = 0 := by
  unfold pcError
  by_cases hc : 3 ≤ (pcHist s target).length
  · have hne : pcHist s target ≠ [] := by
      intro hnil
      rw [hnil] at hc
      simp at hc
    rw [if_pos hc, listMean_const _ target (pcHist_all s target hall) hne, sub_self]
  · rw [if_neg hc, sub_self]

theorem steady_call (s : PCState) (target t r : ℚ) (hinv : steadyInv s target)
    (ht : s.prev_time + s.sample_time ≤ t)
    (h1 : s.min_extrusion ≤ r) (h2 : r ≤ s.max_extrusion) :
    (calculate_extrusion_rate s t target target r).1 = r ∧
    steadyInv (calculate_extrusion_rate s t target target r).2 target := by
  obtain ⟨hpe, hall⟩ := hinv
  have hdt : ¬ (t - s.prev_time < s.sample_time) := not_lt.mpr (by linarith)
  have herr := pcError_steady s target hall
  unfold calculate_extrusion_rate
  simp only [hdt, if_false, herr, hpe, sub_self, zero_div, ite_self, mul_zero,
    add_zero, zero_add, sub_zero]
  refine ⟨?_, ?_, ?_⟩
  · rw [min_eq_right h2, max_eq_right h1]
  · rfl
  · exact pcHist_all s target hall

/-! ## Claim theorems -/

/-- C1.  When the correction branch is taken (at least sample_time has
elapsed since the previous accepted tick) and the configured clamp
interval is well formed, calculate_extrusion_rate returns a rate inside
[min_extrusion, max_extrusion], whatever the pressure reading and the
input extrusion rate. -/
theorem calculate_extrusion_rate_clamped (s : PCState)
    (t current_pressure target_pressure r : ℚ)
    (hdt : s.sample_time ≤ t - s.prev_time)
    (hle : s.min_extrusion ≤ s.max_extrusion) :
    s.min_extrusion ≤
      (calculate_extrusion_rate s t current_pressure target_pressure r).1 ∧
    (calculate_extrusion_rate s t current_pressure target_pressure r).1 ≤
      s.max_extrusion := by
  have h : ¬ (t - s.prev_time < s.sample_time) := not_lt.mpr hdt
  unfold calculate_extrusion_rate
  simp only [h, if_false]
  exact ⟨le_max_left _ _, max_le hle (min_le_left _ _)⟩

/-- Witness for C1: the default controller, ticked 1 s after
construction with pressure 9 against target 5 and input rate 1. -/
theorem calculate_extrusion_rate_clamped_witness :
    pcDefault.sample_time ≤ 1 - pcDefault.prev_time ∧
    pcDefault.min_extrusion ≤ (calculate_extrusion_rate pcDefault 1 9 5 1).1 ∧
    (calculate_extrusion_rate pcDefault 1 9 5 1).1 ≤ pcDefault.max_extrusion := by
  have h1 : pcDefault.sample_time ≤ 1 - pcDefault.prev_time := by
    norm_num [pcDefault]
  have h2 : pcDefault.min_extrusion ≤ pcDefault.max_extrusion := by
    norm_num [pcDefault]
  exact ⟨h1, calculate_extrusion_rate_clamped pcDefault 1 9 5 1 h1 h2⟩

/-- C9.  A call made less than sample_time after the previous accepted
tick returns the passed extrusion rate and the controller state
unchanged (src/pressure_controller.py lines 61-66). -/
theorem calculate_extrusion_rate_skip (s : PCState)
    (t current_pressure target_pressure r : ℚ)
    (h : t - s.prev_time < s.sample_time) :
    calculate_extrusion_rate s t current_pressure target_pressure r = (r, s) := by
  unfold calculate_extrusion_rate
  simp only [h, if_true]

/-- Witness for C9: a call at the construction instant (dt = 0). -/
theorem calculate_extrusion_rate_skip_witness :
    calculate_extrusion_rate pcDefault 0 9 5 7 = (7, pcDefault) :=
  calculate_extrusion_rate_skip pcDefault 0 9 5 7 (by norm_num [pcDefault])

/-- Counterexample for C6 as stated: on the default controller, a tick
a full second after construction with pressure equal to the target but
input rate 1 (above max_extrusion = 1/5) returns the clamped value 1/5,
not the input rate. -/
theorem steady_rate_clamped_counterexample :
    pcDefault.prev_time + pcDefault.sample_time ≤ 1 ∧
    (calculate_extrusion_rate pcDefault 1 5 5 1).1 = 1/5 ∧ ((1 : ℚ)/5 ≠ 1) := by
  refine ⟨by norm_num [pcDefault], ?_, by norm_num⟩
  norm_num [calculate_extrusion_rate, pcHist, pcError, pcDefault, listMean]

/-- C6 (amended).  Starting from a controller whose stored error is 0
and whose stored samples all equal the target (a fresh or reset
controller in particular), a sequence of calls with pressure equal to
target, each at least sample_time after the previous accepted tick,
and each input rate inside [min_extrusion, max_extrusion], returns
every input rate unchanged. -/
theorem steady_sequence_returns_input_rates (s : PCState) (target : ℚ)
    (calls : List (ℚ × ℚ)) (hinv : steadyInv s target)
    (hok : okCalls s target calls) :
    runCalls s target calls = calls.map Prod.snd := by
  induction calls generalizing s with
  | nil => rfl
  | cons c rest ih =>
      obtain ⟨t, r⟩ := c
      simp only [okCalls] at hok
      obtain ⟨ht, h1, h2, hrest⟩ := hok
      obtain ⟨hout, hinv2⟩ := steady_call s target t r hinv ht h1 h2
      simp only [runCalls, List.map, hout]
      rw [ih _ hinv2 hrest]

/-- Witness for C6 (amended): two steady ticks on the default
controller with in-range rates. -/
theorem steady_sequence_returns_input_rates_witness :
    runCalls pcDefault 5 [(1, 1/10), (2, 3/20)] = [1/10, 3/20] := by
  apply steady_sequence_returns_input_rates
  · exact ⟨rfl, by simp [pcDefault]⟩
  · simp only [okCalls]
    norm_num [calculate_extrusion_rate, pcHist, pcError, listMean, pcDefault]

/-- C2.  The capture directive does not round-trip: the line
capture_print emits for camera=1, x=10, y=20, z=30, filename="f.jpg",
timelapse=False carries 7 comma-separated fields, while
_handle_capture_command requires exactly 5, so it rejects the line as
malformed (and in any case recovers no filename or timelapse field). -/
theorem capture_line_rejected_by_handler :
    (capture_print 1 10 20 30 (some "f.jpg") false 30 1800).get? 2 =
      some (captureLine 1 10 20 30 (some "f.jpg") false) ∧
    (splitOnChar ',' (captureLine 1 10 20 30 (some "f.jpg") false).data).length = 7 ∧
    handleCaptureCommand (captureLine 1 10 20 30 (some "f.jpg") false) = none := by
  refine ⟨?_, ?_, ?_⟩ <;> decide

/-- Counterexample for C4 as stated: the mode-switch line
"G90; Absolute Cordinates" is an instruction the claim says is
forwarded, yet the dispatcher skips it (its inline comment makes ";"
a substring), while the blank line the claim says is skipped is
forwarded to send_gcode. -/
theorem dispatcher_differs_from_spec_counterexample :
    executeToolpath ["G90; Absolute Cordinates", ""] = [DispatchEvent.sent ""] ∧
    specDispatch ["G90; Absolute Cordinates", ""] =
      [DispatchEvent.sent "G90; Absolute Cordinates"] ∧
    executeToolpath ["G90; Absolute Cordinates", ""] ≠
      specDispatch ["G90; Absolute Cordinates", ""] := by
  refine ⟨?_, ?_, ?_⟩ <;> decide

/-- C4 (amended).  The dispatcher routes every line containing
"CAPTURE" to the capture handler and sends to send_gcode, verbatim and
in toolpath order, exactly the remaining lines that contain no ";"
anywhere; so comment lines are skipped, but so is every instruction
carrying an inline comment (the G90/G91 mode switches), while blank
lines are sent. -/
theorem dispatcher_filters_semicolon_lines (toolpath : List String) :
    sentLines (executeToolpath toolpath) =
      toolpath.filter (fun c => !(pyIn "CAPTURE" c) && !(pyIn ";" c)) ∧
    capturedLines (executeToolpath toolpath) =
      toolpath.filter (fun c => pyIn "CAPTURE" c) := by
  induction toolpath with
  | nil => exact ⟨rfl, rfl⟩
  | cons c rest ih =>
      obtain ⟨ih1, ih2⟩ := ih
      simp only [sentLines, capturedLines] at ih1 ih2
      by_cases h1 : pyIn "CAPTURE" c
      · simp [executeToolpath, sentLines, capturedLines, h1, List.filter_cons,
          ih1, ih2]
      · by_cases h2 : pyIn ";" c
        · simp [executeToolpath, sentLines, capturedLines, h1, h2,
            List.filter_cons, ih1, ih2]
        · simp [executeToolpath, sentLines, capturedLines, h1, h2,
            List.filter_cons, ih1, ih2]

/-- The planar stroke length is never negative. -/
theorem planarDistance_nonneg (dx dy : ℝ) : 0 ≤ planarDistance dx dy :=
  Real.sqrt_nonneg _

/-- A stroke along X alone has planar length the absolute displacement. -/
theorem planarDistance_x (x : ℝ) : planarDistance x 0 = |x| := by
  unfold planarDistance
  rw [show (0 : ℝ) ^ 2 = 0 by norm_num, add_zero, Real.sqrt_sq_eq_abs]

/-- A stroke along Y alone has planar length the absolute displacement. -/
theorem planarDistance_y (y : ℝ) : planarDistance 0 y = |y| := by
  unfold planarDistance
  rw [show (0 : ℝ) ^ 2 = 0 by norm_num, zero_add, Real.sqrt_sq_eq_abs]

/-- C5.  Every printing stroke (printX, printY, movePrintHead with
extrusion) encodes E = -extrusion * planar stroke length (so E is
non-positive for a non-negative configured rate) and feed F =
feed_rate; every pure travel move (moveX, moveY, moveZ, movePrintHead
without extrusion) encodes F = movement_speed and no E term. -/
theorem printing_strokes_encode_extrusion_and_feed (prnt : Printer) (x y z : ℝ)
    (he : 0 ≤ prnt.extrusion) :
    (movePrintHead x y z prnt true =
        [Instr.g1xyzEF x y z (-(prnt.extrusion * planarDistance x y)) prnt.feed_rate] ∧
      -(prnt.extrusion * planarDistance x y) ≤ 0) ∧
    (printX x prnt =
        [Instr.g1xEF x (-(prnt.extrusion * planarDistance x 0)) prnt.feed_rate] ∧
      -(prnt.extrusion * planarDistance x 0) ≤ 0) ∧
    (printY y prnt =
        [Instr.g1yEF y (-(prnt.extrusion * planarDistance 0 y)) prnt.feed_rate] ∧
      -(prnt.extrusion * planarDistance 0 y) ≤ 0) ∧
    moveX x prnt = [Instr.g1xF x prnt.movement_speed] ∧
    moveY y prnt = [Instr.g1yF y prnt.movement_speed] ∧
    moveZ z prnt = [Instr.g1zF z prnt.movement_speed] ∧
    movePrintHead x y z prnt false = [Instr.g1xyzF x y z prnt.movement_speed] ∧
    (∀ i ∈ moveX x prnt ++ moveY y prnt ++ moveZ z prnt ++
        movePrintHead x y z prnt false, Instr.eTerm i = none) := by
  have habs : |Real.sqrt (x ^ 2 + y ^ 2)| = planarDistance x y :=
    abs_of_nonneg (Real.sqrt_nonneg _)
  have hneg : ∀ dx dy : ℝ, -(prnt.extrusion * planarDistance dx dy) ≤ 0 :=
    fun dx dy => neg_nonpos.mpr (mul_nonneg he (planarDistance_nonneg dx dy))
  refine ⟨⟨?_, hneg x y⟩, ⟨?_, hneg x 0⟩, ⟨?_, hneg 0 y⟩, rfl, rfl, rfl, ?_, ?_⟩
  · simp only [movePrintHead, if_true, habs]
  · simp only [printX, planarDistance_x]
  · simp only [printY, planarDistance_y]
  · simp only [movePrintHead, Bool.false_eq_true, if_false]
  · intro i hi
    simp only [moveX, moveY, moveZ, movePrintHead, Bool.false_eq_true, if_false,
      List.mem_append, List.mem_singleton] at hi
    rcases hi with ((h | h) | h) | h <;> subst h <;> rfl

/-- Witness for C5: the MXene profile (extrusion 0.02 >= 0) with the
3-4-5 stroke. -/
theorem printing_strokes_encode_witness :
    (0 : ℝ) ≤ printerMXene.extrusion ∧
    -(printerMXene.extrusion * planarDistance 3 4) ≤ 0 ∧
    moveX 3 printerMXene = [Instr.g1xF 3 printerMXene.movement_speed] := by
  have he : (0 : ℝ) ≤ printerMXene.extrusion := by norm_num [printerMXene]
  have h := printing_strokes_encode_extrusion_and_feed printerMXene 3 4 1 he
  exact ⟨he, h.1.2, h.2.2.2.1⟩

/-! ## Mode-switch bookkeeping lemmas -/

@[simp]
theorem modesOf_nil : modesOf [] = [] := rfl

@[simp]
theorem modesOf_append (l1 l2 : List Instr) :
    modesOf (l1 ++ l2) = modesOf l1 ++ modesOf l2 :=
  List.filterMap_append l1 l2 _

@[simp]
theorem modesOf_absolute : modesOf absoluteCmd = [true] := rfl

@[simp]
theorem modesOf_relative : modesOf relativeCmd = [false] := rfl

@[simp]
theorem modesOf_printX (x : ℝ) (p : Printer) : modesOf (printX x p) = [] := rfl

@[simp]
theorem modesOf_printY (y : ℝ) (p : Printer) : modesOf (printY y p) = [] := rfl

@[simp]
theorem modesOf_moveX (x : ℝ) (p : Printer) : modesOf (moveX x p) = [] := rfl

@[simp]
theorem modesOf_moveY (y : ℝ) (p : Printer) : modesOf (moveY y p) = [] := rfl

@[simp]
theorem modesOf_moveZ (z : ℝ) (p : Printer) : modesOf (moveZ z p) = [] := rfl

@[simp]
theorem modesOf_movePrintHead (x y z : ℝ) (p : Printer) (b : Bool) :
    modesOf (movePrintHead x y z p b) = [] := by
  cases b <;> rfl

@[simp]
theorem modesOf_cons_commentLayers (c : Capacitor) (p : Printer)
    (a b d e : ℝ) (l : List Instr) :
    modesOf (Instr.commentLayers c p a b d e :: l) = modesOf l := rfl

@[simp]
theorem modesOf_cons_comment (s : String) (l : List Instr) :
    modesOf (Instr.comment s :: l) = modesOf l := rfl

theorem modesOf_printLayersArmL (cap : Capacitor) (pObj : Printer) (i : ℕ) :
    modesOf (printLayersArmL cap pObj i) =
      false :: false ::
        (if (i : ℤ) < (cap.arm_count : ℤ) - 1 then [true] else []) := by
  by_cases hc : (i : ℤ) < (cap.arm_count : ℤ) - 1 <;>
    simp [printLayersArmL, hc]

/-- Counterexample for C7 as stated: with a one-arm capacitor,
printLayers emits the SetMode sequence G90, G91, G91, G90, G91, G91 —
two adjacent relative switches with no absolute switch between them. -/
theorem printLayers_duplicate_modes_counterexample :
    ¬ List.Chain' (fun a b => a ≠ b)
      (modesOf (printLayers capOneArm printerMXene 0 0 0 0).1) := by
  have h : modesOf (printLayers capOneArm printerMXene 0 0 0 0).1 =
      [true, false, false, true, false, false] := by rfl
  rw [h]
  intro hch
  exact (List.chain'_cons.mp (List.chain'_cons.mp hch).2).1 rfl

/-- C7 (amended).  The generators emit SetMode switches unconditionally
without tracking the active mode: every printLayers toolpath with at
least one arm contains two adjacent same-mode SetMode instructions
(two consecutive G91 lines), so the claimed alternation invariant
fails on every such run. -/
theorem printLayers_emits_adjacent_relative_modes (cap : Capacitor)
    (prnt : Printer) (xStart yStart xOffset yOffset : ℝ)
    (h : 1 ≤ cap.arm_count) :
    ¬ List.Chain' (fun a b => a ≠ b)
      (modesOf (printLayers cap prnt xStart yStart xOffset yOffset).1) := by
  obtain ⟨m, hm⟩ : ∃ m, cap.arm_count = m + 1 :=
    ⟨cap.arm_count - 1, (Nat.succ_pred_eq_of_pos h).symm⟩
  intro hch
  simp only [printLayers] at hch
  rw [hm, List.range_succ_eq_map] at hch
  simp only [List.flatMap_cons, modesOf_append, modesOf_absolute,
    modesOf_relative, modesOf_movePrintHead, modesOf_moveZ,
    modesOf_cons_commentLayers, modesOf_cons_comment, modesOf_nil,
    modesOf_printLayersArmL, List.nil_append, List.cons_append,
    List.append_assoc] at hch
  exact (List.chain'_cons.mp (List.chain'_cons.mp hch).2).1 rfl

/-- Witness for C7 (amended): the standard four-arm capacitor. -/
theorem printLayers_emits_adjacent_relative_modes_witness :
    ¬ List.Chain' (fun a b => a ≠ b)
      (modesOf (printLayers capStd printerMXene 5 5 0 0).1) :=
  printLayers_emits_adjacent_relative_modes capStd printerMXene 5 5 0 0
    (by norm_num [capStd])

/-- C8.  printCap_contact_patch binds prntPre to the caller's profile
object itself (not a copy), so the +0.005 assignment mutates the
caller's profile: after the call the object's extrusion field is the
old value plus 0.005, contradicting the claim that every field is
restored. -/
theorem printCap_contact_patch_mutates_caller :
    (printCap_contact_patch capStd printerMXene 0 0).2.extrusion =
      printerMXene.extrusion + 0.005 ∧
    printerMXene.extrusion + (0.005 : ℝ) ≠ printerMXene.extrusion := by
  constructor
  · rfl
  · norm_num [printerMXene]

/-- C3.  lattice_3d never returns normally for a positive layer count:
its per-layer height update calls prnt.setPrintHeight, an attribute the
Printer class does not define (it defines set_print_height), so the
first layer raises AttributeError. -/
theorem lattice_3d_attribute_error (prnt : Printer) (start_x start_y : ℝ)
    (rows cols : ℕ) (spacing : ℝ) (layers : ℕ) (layer_height : ℝ)
    (h : 1 ≤ layers) :
    lattice_3d prnt start_x start_y rows cols spacing layers layer_height =
      Except.error PyErr.attributeError := by
  obtain ⟨m, hm⟩ : ∃ m, layers = m + 1 :=
    ⟨layers - 1, (Nat.succ_pred_eq_of_pos h).symm⟩
  subst hm
  simp only [lattice_3d, List.range_succ_eq_map, lattice3dGo, setPrintHeightCall]

/-- Witness for C3: the default geometry (rows=5, cols=5, spacing=3,
layers=5, layer_height=0.5) on the MXene profile. -/
theorem lattice_3d_attribute_error_witness :
    lattice_3d printerMXene 60 50 5 5 3 5 (1/2 : ℝ) =
      Except.error PyErr.attributeError :=
  lattice_3d_attribute_error printerMXene 60 50 5 5 3 5 (1/2 : ℝ)
    (by norm_num)

/-- C10.  If every velocity query raises, is_printer_moving reports
not-moving on every poll, so wait_for_idle passes its debounce
double-check on the first iteration and declares the printer idle:
a dead controller is indistinguishable from an idle one. -/
theorem wait_for_idle_declares_idle_on_errors (poll : ℕ → Except Unit ℚ)
    (hpoll : ∀ i, poll i = Except.error ()) (fuel : ℕ) (hf : 1 ≤ fuel)
    (i : ℕ) : wait_for_idle poll fuel i = true := by
  obtain ⟨n, hn⟩ : ∃ n, fuel = n + 1 :=
    ⟨fuel - 1, (Nat.succ_pred_eq_of_pos hf).symm⟩
  subst hn
  simp [wait_for_idle, hpoll, is_printer_moving]

/-- Witness for C10: three polls of budget against a stream of
failures. -/
theorem wait_for_idle_declares_idle_on_errors_witness :
    wait_for_idle pollAlwaysFails 3 0 = true :=
  wait_for_idle_declares_idle_on_errors pollAlwaysFails (fun _ => rfl) 3
    (by norm_num) 0

end PrinterPython
